import Mathlib

/-!
Verification of the prediction-run orchestration pipeline of the Stock
repository (`src/routes/modelPredict.js`, `router.post('/')`).

The handler is embedded as pure Lean functions:
- JSON values produced by `JSON.parse` are modelled by the inductive `Json`
  (numbers restricted to integers: the pipeline never inspects a numeric
  value except through JavaScript truthiness, i.e. a zero test);
- `jsonParse` models `JSON.parse` (returning `none` where the builtin throws);
- `recoverOutput` models the direct-parse / brace-substring fallback of
  lines 73–91;
- `checkPredictionFields` models the truthiness check of line 94;
- `savePriceLoop` / `saveFactorLoop` model the two persistence loops of
  lines 99–127, with the database sink abstracted as an oracle mapping the
  call index and record to success or a thrown error message;
- `modelPredictPost` composes the stages exactly as the route handler does,
  returning the HTTP response together with the records actually committed
  to the sink and whether the child process was spawned.

Engine-generated exception messages (`JSON.parse` syntax errors, the
`for...of` TypeError) are modelled as fixed strings: the handler only
forwards them opaquely in the `details` field.
-/

/-- A JSON value as produced by `JSON.parse`.  Object members are kept in
textual order; numbers are modelled as integers (see module comment). -/
inductive Json where
  | null : Json
  | bool (b : Bool) : Json
  | num (n : Int) : Json
  | str (s : String) : Json
  | arr (items : List Json) : Json
  | obj (entries : List (String × Json)) : Json
deriving Repr

/-- The opening-brace character, written via its code point to keep brace
characters out of literals. -/
def braceOpen : Char := Char.ofNat 123

/-- The closing-brace character. -/
def braceClose : Char := Char.ofNat 125

/-- JSON insignificant whitespace, as accepted by `JSON.parse`. -/
def isJsonWs (c : Char) : Bool :=
  [' ', '\t', '\n', '\r'].contains c

/-- Drop leading JSON whitespace. -/
def skipWs (cs : List Char) : List Char :=
  cs.dropWhile isJsonWs

/-- Split off a maximal run of leading decimal digits. -/
def takeDigits (cs : List Char) : List Char × List Char :=
  cs.span Char.isDigit

/-- Numeric value of a digit run (most significant digit first). -/
def digitsToNat : List Char → Nat → Nat
  | [], acc => acc
  | c :: rest, acc => digitsToNat rest (acc * 10 + (c.toNat - 48))

/-- Value of a hexadecimal digit, by code-point range. -/
def hexVal (c : Char) : Option Nat :=
  let n := c.toNat
  if 48 ≤ n && n ≤ 57 then some (n - 48)
  else if 97 ≤ n && n ≤ 102 then some (n - 87)
  else if 65 ≤ n && n ≤ 70 then some (n - 55)
  else none

/-- Parse the body of a JSON string literal (the opening quote already
consumed), handling the escape sequences `JSON.parse` accepts.  Returns the
decoded characters and the remaining input after the closing quote. -/
def parseStringRest : List Char → Option (List Char × List Char)
  | [] => none
  | c :: rest =>
    if c = '"' then some ([], rest)
    else if c = '\\' then
      match rest with
      | [] => none
      | e :: rest2 =>
        if e = 'u' then
          match rest2 with
          | h1 :: h2 :: h3 :: h4 :: rest3 =>
            match hexVal h1, hexVal h2, hexVal h3, hexVal h4 with
            | some v1, some v2, some v3, some v4 =>
              match parseStringRest rest3 with
              | some (cs, r) =>
                some (Char.ofNat (((v1 * 16 + v2) * 16 + v3) * 16 + v4) :: cs, r)
              | none => none
            | _, _, _, _ => none
          | _ => none
        else
          let decoded : Option Char :=
            if e = '"' then some '"'
            else if e = '\\' then some '\\'
            else if e = '/' then some '/'
            else if e = 'b' then some (Char.ofNat 8)
            else if e = 'f' then some (Char.ofNat 12)
            else if e = 'n' then some '\n'
            else if e = 'r' then some '\r'
            else if e = 't' then some '\t'
            else none
          match decoded with
          | some d =>
            match parseStringRest rest2 with
            | some (cs, r) => some (d :: cs, r)
            | none => none
          | none => none
    else
      match parseStringRest rest with
      | some (cs, r) => some (c :: cs, r)
      | none => none

mutual

/-- Recursive-descent JSON value parser (fuel-indexed for termination).
Models the grammar `JSON.parse` accepts, with numbers restricted to
(optionally signed) integer literals. -/
def parseJsonVal : Nat → List Char → Option (Json × List Char)
  | 0, _ => none
  | Nat.succ fuel, input =>
    match skipWs input with
    | [] => none
    | c :: rest =>
      if c = 'n' then
        match rest with
        | 'u' :: 'l' :: 'l' :: r => some (Json.null, r)
        | _ => none
      else if c = 't' then
        match rest with
        | 'r' :: 'u' :: 'e' :: r => some (Json.bool true, r)
        | _ => none
      else if c = 'f' then
        match rest with
        | 'a' :: 'l' :: 's' :: 'e' :: r => some (Json.bool false, r)
        | _ => none
      else if c = '"' then
        match parseStringRest rest with
        | some (cs, r) => some (Json.str (String.mk cs), r)
        | none => none
      else if c = '-' then
        match takeDigits rest with
        | ([], _) => none
        | (ds, r) => some (Json.num (-(Int.ofNat (digitsToNat ds 0))), r)
      else if c.isDigit then
        let (ds, r) := takeDigits rest
        some (Json.num (Int.ofNat (digitsToNat (c :: ds) 0)), r)
      else if c = braceOpen then
        match skipWs rest with
        | [] => none
        | c2 :: r2 =>
          if c2 = braceClose then some (Json.obj [], r2)
          else parseObjMembers fuel (c2 :: r2)
      else if c = '[' then
        match skipWs rest with
        | [] => none
        | c2 :: r2 =>
          if c2 = ']' then some (Json.arr [], r2)
          else parseArrElems fuel (c2 :: r2)
      else none

/-- Parse one or more array elements followed by `]`. -/
def parseArrElems : Nat → List Char → Option (Json × List Char)
  | 0, _ => none
  | Nat.succ fuel, input =>
    match parseJsonVal fuel input with
    | none => none
    | some (v, rest) =>
      match skipWs rest with
      | ',' :: r =>
        match parseArrElems fuel r with
        | some (Json.arr vs, r2) => some (Json.arr (v :: vs), r2)
        | _ => none
      | ']' :: r => some (Json.arr [v], r)
      | _ => none

/-- Parse one or more `"key": value` members followed by the closing brace. -/
def parseObjMembers : Nat → List Char → Option (Json × List Char)
  | 0, _ => none
  | Nat.succ fuel, input =>
    match skipWs input with
    | '"' :: rest =>
      match parseStringRest rest with
      | none => none
      | some (key, r1) =>
        match skipWs r1 with
        | ':' :: r2 =>
          match parseJsonVal fuel r2 with
          | none => none
          | some (v, r3) =>
            match skipWs r3 with
            | ',' :: r4 =>
              match parseObjMembers fuel r4 with
              | some (Json.obj ms, r5) => some (Json.obj ((String.mk key, v) :: ms), r5)
              | _ => none
            | c :: r4 =>
              if c = braceClose then some (Json.obj [(String.mk key, v)], r4)
              else none
            | [] => none
        | _ => none
    | _ => none

end

/-- `JSON.parse`: the whole text must be a single JSON value surrounded by
nothing but whitespace; `none` models a thrown `SyntaxError`. -/
def jsonParse (text : String) : Option Json :=
  match parseJsonVal (text.data.length + 1) text.data with
  | some (v, rest) =>
    match skipWs rest with
    | [] => some v
    | _ :: _ => none
  | none => none

/-- `String.prototype.indexOf` for a single character: index of the first
occurrence, `-1` when absent. -/
def jsIndexOf (s : List Char) (c : Char) : Int :=
  match s.findIdx? (fun d => d = c) with
  | some i => Int.ofNat i
  | none => -1

/-- `String.prototype.lastIndexOf` for a single character: index of the last
occurrence, `-1` when absent. -/
def jsLastIndexOf (s : List Char) (c : Char) : Int :=
  match s.reverse.findIdx? (fun d => d = c) with
  | some i => Int.ofNat (s.length - 1 - i)
  | none => -1

/-- `String.prototype.substring s a b` for the in-range case `a ≤ b ≤ s.length`
in which the handler calls it. -/
def jsSubstring (s : List Char) (a b : Nat) : List Char :=
  (s.take b).drop a

/-- `pythonOutput.substring(0, n)`: the bounded excerpt of raw output the
handler attaches to a parse-failure response. -/
def boundedExcerpt (s : String) (n : Nat) : String :=
  String.mk (s.data.take n)

/-- Message of the `Error` thrown at line 89 when no brace pair exists. -/
def noJsonFoundMsg : String := "未能在输出中找到有效的JSON数据"

/-- Stand-in for the engine-specific `SyntaxError` message raised by
`JSON.parse` on undecodable text (forwarded opaquely as `details`). -/
def jsonDecodeErrMsg : String := "SyntaxError: Unexpected token in JSON"

/-- Stand-in for the engine-specific `TypeError` message raised by `for...of`
over a non-iterable value (forwarded opaquely as `details`). -/
def notIterableMsg : String := "TypeError: value is not iterable"

/-- Output Recoverer (lines 74–91): direct `JSON.parse`, then the fallback
that decodes the substring from the first `braceOpen` to the last
`braceClose`; `Except.error` carries the message reaching `parseError`. -/
def recoverOutput (pythonOutput : String) : Except String Json :=
  match jsonParse pythonOutput with
  | some v => Except.ok v
  | none =>
    let cs := pythonOutput.data
    let jsonStartIndex := jsIndexOf cs braceOpen
    let jsonEndIndex := jsLastIndexOf cs braceClose + 1
    if jsonStartIndex ≥ 0 ∧ jsonEndIndex > jsonStartIndex then
      match jsonParse (String.mk (jsSubstring cs jsonStartIndex.toNat jsonEndIndex.toNat)) with
      | some v => Except.ok v
      | none => Except.error jsonDecodeErrMsg
    else Except.error noJsonFoundMsg

/-- JavaScript property access `v[key]` on a decoded JSON value: `none` is
`undefined`.  With duplicate keys `JSON.parse` keeps the last member, so
the last occurrence wins. -/
def jsGet (v : Json) (key : String) : Option Json :=
  match v with
  | Json.obj members =>
    match members.reverse.find? (fun m => m.1 = key) with
    | some m => some m.2
    | none => none
  | _ => none

/-- JavaScript truthiness of a decoded JSON value. -/
def jsTruthy : Json → Bool
  | Json.null => false
  | Json.bool b => b
  | Json.num n => !(n = 0)
  | Json.str s => !(s = "")
  | Json.arr _ => true
  | Json.obj _ => true

/-- Truthiness of a possibly-`undefined` property. -/
def jsTruthyOpt : Option Json → Bool
  | none => false
  | some v => jsTruthy v

/-- Line 94: `!predictions.final_predictions || !predictions.factor_predictions`
negated — `true` exactly when execution continues past the check. -/
def checkPredictionFields (predictions : Json) : Bool :=
  jsTruthyOpt (jsGet predictions "final_predictions") &&
    jsTruthyOpt (jsGet predictions "factor_predictions")

/-- `for...of` iterability of a decoded JSON value: arrays yield their
elements, strings their characters; every other value throws a TypeError
(`none`). -/
def jsIterate : Json → Option (List Json)
  | Json.arr elems => some elems
  | Json.str s => some (s.data.map (fun c => Json.str (String.mk [c])))
  | _ => none

/-- Persisted price-prediction record built at lines 101–106; fields are raw
JSON values (`none` = `undefined` when the entry lacks the property). -/
structure PricePredictionRecord where
  stockId : Option Json
  date : Option Json
  predictedPrice : Option Json
  createdAt : String

/-- Persisted factor-prediction record built at lines 116–123
(y0→TTM, y1→PE, y2→PB, y3→PCF). -/
structure FactorPredictionRecord where
  stockId : Option Json
  date : Option Json
  TTM : Option Json
  PE : Option Json
  PB : Option Json
  PCF : Option Json

/-- Build a `PricePredictionRecord` from a raw entry; `now` abstracts
`new Date().toISOString()`. -/
def mkPriceRecord (now : String) (prediction : Json) : PricePredictionRecord :=
  { stockId := jsGet prediction "stockid"
    date := jsGet prediction "date"
    predictedPrice := jsGet prediction "label"
    createdAt := now }

/-- Build a `FactorPredictionRecord` from a raw entry. -/
def mkFactorRecord (prediction : Json) : FactorPredictionRecord :=
  { stockId := jsGet prediction "stockid"
    date := jsGet prediction "date"
    TTM := jsGet prediction "y0"
    PE := jsGet prediction "y1"
    PB := jsGet prediction "y2"
    PCF := jsGet prediction "y3" }

/-- The database sink (`database.savePrediction` / `saveFactorPrediction`),
abstracted as a deterministic oracle: given the index of the write within its
loop and the record, it either succeeds or throws an error message. -/
structure SinkOracle where
  priceResult : Nat → PricePredictionRecord → Except String Unit
  factorResult : Nat → FactorPredictionRecord → Except String Unit

/-- Price-persistence loop (lines 99–110): maps and writes each entry in
order, appending to `acc` after a successful write; on the first failure it
stops and returns the error message alongside the records committed so far. -/
def savePriceLoop (sink : SinkOracle) (now : String) :
    List Json → Nat → List PricePredictionRecord →
    List PricePredictionRecord × Option String
  | [], _, acc => (acc, none)
  | prediction :: rest, i, acc =>
    let record := mkPriceRecord now prediction
    match sink.priceResult i record with
    | Except.error msg => (acc, some msg)
    | Except.ok _ => savePriceLoop sink now rest (i + 1) (acc ++ [record])

/-- Factor-persistence loop (lines 113–127), same shape. -/
def saveFactorLoop (sink : SinkOracle) :
    List Json → Nat → List FactorPredictionRecord →
    List FactorPredictionRecord × Option String
  | [], _, acc => (acc, none)
  | prediction :: rest, i, acc =>
    let record := mkFactorRecord prediction
    match sink.factorResult i record with
    | Except.error msg => (acc, some msg)
    | Except.ok _ => saveFactorLoop sink rest (i + 1) (acc ++ [record])

/-- One `res.status(...).json(...)` call of the handler, one constructor per
call site. -/
inductive Response where
  | notFound (error : String)
  | serverError (error : String) (details : String)
  | parseFailed (error : String) (details : String) (pythonOutput : String)
  | success (message : String) (priceCount : Nat)
      (priceSamples : List PricePredictionRecord) (factorCount : Nat)
      (factorSamples : List FactorPredictionRecord)

/-- The HTTP status code set alongside each response body. -/
def Response.statusCode : Response → Nat
  | Response.notFound _ => 404
  | Response.serverError _ _ => 500
  | Response.parseFailed _ _ _ => 500
  | Response.success _ _ _ _ _ => 200

/-- The `error` field of the JSON body (`none` for the success body, which
has `message` instead). -/
def Response.errorField : Response → Option String
  | Response.notFound e => some e
  | Response.serverError e _ => some e
  | Response.parseFailed e _ _ => some e
  | Response.success _ _ _ _ _ => none

/-- Ambient inputs of one run: the dataset as returned by
`database.getAllStocks()` (`none` = null/undefined), and the child process's
exit code and captured stdout/stderr text. -/
structure RunInput where
  stockData : Option (List Json)
  exitCode : Int
  stdoutText : String
  stderrText : String

/-- Observable outcome of one run: the response sent, the records actually
committed to the sink (in write order), and whether `spawn` was reached. -/
structure RunResult where
  response : Response
  committedPrices : List PricePredictionRecord
  committedFactors : List FactorPredictionRecord
  processSpawned : Bool

/-- Mapping stage (lines 99–139): iterate `final_predictions`, then
`factor_predictions`, writing each mapped record through the sink; any raised
error lands in `catch (parseError)` (lines 141–148) and produces the same
500 response shape as a parse failure. -/
def runMappingStage (sink : SinkOracle) (now : String) (pythonOutput : String)
    (predictions : Json) : RunResult :=
  match jsIterate ((jsGet predictions "final_predictions").getD Json.null) with
  | none =>
    { response := Response.parseFailed "解析预测结果失败" notIterableMsg
        (boundedExcerpt pythonOutput 200)
      committedPrices := [], committedFactors := [], processSpawned := true }
  | some priceEntries =>
    match savePriceLoop sink now priceEntries 0 [] with
    | (committed, some msg) =>
      { response := Response.parseFailed "解析预测结果失败" msg
          (boundedExcerpt pythonOutput 200)
        committedPrices := committed, committedFactors := []
        processSpawned := true }
    | (savedPricePredictions, none) =>
      match jsIterate ((jsGet predictions "factor_predictions").getD Json.null) with
      | none =>
        { response := Response.parseFailed "解析预测结果失败" notIterableMsg
            (boundedExcerpt pythonOutput 200)
          committedPrices := savedPricePredictions, committedFactors := []
          processSpawned := true }
      | some factorEntries =>
        match saveFactorLoop sink factorEntries 0 [] with
        | (committed, some msg) =>
          { response := Response.parseFailed "解析预测结果失败" msg
              (boundedExcerpt pythonOutput 200)
            committedPrices := savedPricePredictions
            committedFactors := committed, processSpawned := true }
        | (savedFactorPredictions, none) =>
          { response := Response.success "预测完成并保存到数据库"
              savedPricePredictions.length (savedPricePredictions.take 5)
              savedFactorPredictions.length (savedFactorPredictions.take 5)
            committedPrices := savedPricePredictions
            committedFactors := savedFactorPredictions
            processSpawned := true }

/-- Parse-and-validate stage (lines 73–96 feeding into the mapping stage):
recover the output, check both prediction fields for truthiness, and hand
over to the mapping stage; failures produce the `catch (parseError)`
response. -/
def runParseStage (sink : SinkOracle) (now : String) (pythonOutput : String) :
    RunResult :=
  match recoverOutput pythonOutput with
  | Except.error msg =>
    { response := Response.parseFailed "解析预测结果失败" msg
        (boundedExcerpt pythonOutput 200)
      committedPrices := [], committedFactors := [], processSpawned := true }
  | Except.ok predictions =>
    if checkPredictionFields predictions then
      runMappingStage sink now pythonOutput predictions
    else
      { response := Response.parseFailed "解析预测结果失败"
          "预测结果格式不正确，缺少必要的数据字段" (boundedExcerpt pythonOutput 200)
        committedPrices := [], committedFactors := [], processSpawned := true }

/-- The whole `router.post('/')` handler (lines 25–155): dataset check,
child-process run, exit-code check, then parse/validate/persist. -/
def modelPredictPost (sink : SinkOracle) (now : String) (inp : RunInput) :
    RunResult :=
  match inp.stockData with
  | none =>
    { response := Response.notFound "未找到股票数据"
      committedPrices := [], committedFactors := [], processSpawned := false }
  | some stockData =>
    if stockData.length = 0 then
      { response := Response.notFound "未找到股票数据"
        committedPrices := [], committedFactors := [], processSpawned := false }
    else if inp.exitCode ≠ 0 then
      { response := Response.serverError "模型执行失败" inp.stderrText
        committedPrices := [], committedFactors := [], processSpawned := true }
    else runParseStage sink now inp.stdoutText

/-! ### Concrete fixtures used by witnesses and counterexamples -/

/-- A sink whose writes always succeed. -/
def okSink : SinkOracle where
  priceResult := fun _ _ => Except.ok ()
  factorResult := fun _ _ => Except.ok ()

/-- A sink whose price write fails (with message `msg`) exactly at call
index `k`; factor writes always succeed. -/
def mkFailSink (k : Nat) (msg : String) : SinkOracle where
  priceResult := fun i _ => if i = k then Except.error msg else Except.ok ()
  factorResult := fun _ _ => Except.ok ()

/-- A run input with a one-row dataset, exit code 0 and the given stdout. -/
def mkInput (stdoutText : String) : RunInput :=
  { stockData := some [Json.null], exitCode := 0, stdoutText := stdoutText
    stderrText := "" }

/-- The spec's Output-Recoverer round-trip text: diagnostics around an
embedded JSON object with two empty sequences. -/
def warmupText : String :=
  "warming up...\n\x7b\"final_predictions\":[],\"factor_predictions\":[]\x7d\ndone"

/-- Stdout whose single price entry has an empty stock id and empty date. -/
def emptyIdStdout : String :=
  "\x7b\"final_predictions\":[\x7b\"stockid\":\"\",\"date\":\"\"\x7d],\"factor_predictions\":[]\x7d"

/-- Stdout decoding to an object with only `final_predictions`. -/
def malformedStdout : String :=
  "\x7b\"final_predictions\":[]\x7d"

/-- Stdout with one well-formed price entry and no factor entries. -/
def oneEntryStdout : String :=
  "\x7b\"final_predictions\":[\x7b\"stockid\":\"sh600000\",\"date\":\"2024-01-02\",\"label\":7\x7d],\"factor_predictions\":[]\x7d"

/-- Stdout with no brace pair at all. -/
def noJsonStdout : String := "no structured output"

/-- Stdout with five price entries `s1`…`s5` and no factor entries. -/
def fiveEntryStdout : String :=
  "\x7b\"final_predictions\":[\x7b\"stockid\":\"s1\"\x7d,\x7b\"stockid\":\"s2\"\x7d,\x7b\"stockid\":\"s3\"\x7d,\x7b\"stockid\":\"s4\"\x7d,\x7b\"stockid\":\"s5\"\x7d],\"factor_predictions\":[]\x7d"

/-- The five raw entries of `fiveEntryStdout`. -/
def fiveEntries : List Json :=
  [Json.obj [("stockid", Json.str "s1")], Json.obj [("stockid", Json.str "s2")],
   Json.obj [("stockid", Json.str "s3")], Json.obj [("stockid", Json.str "s4")],
   Json.obj [("stockid", Json.str "s5")]]

/-- The decoded object of `fiveEntryStdout`. -/
def fivePredictions : Json :=
  Json.obj [("final_predictions", Json.arr fiveEntries),
    ("factor_predictions", Json.arr [])]

/-- Stdout with eight price entries `p1`…`p8` and one factor entry. -/
def eightEntryStdout : String :=
  "\x7b\"final_predictions\":[\x7b\"stockid\":\"p1\"\x7d,\x7b\"stockid\":\"p2\"\x7d,\x7b\"stockid\":\"p3\"\x7d,\x7b\"stockid\":\"p4\"\x7d,\x7b\"stockid\":\"p5\"\x7d,\x7b\"stockid\":\"p6\"\x7d,\x7b\"stockid\":\"p7\"\x7d,\x7b\"stockid\":\"p8\"\x7d],\"factor_predictions\":[\x7b\"stockid\":\"f1\"\x7d]\x7d"

/-- The eight raw price entries of `eightEntryStdout`. -/
def eightEntries : List Json :=
  [Json.obj [("stockid", Json.str "p1")], Json.obj [("stockid", Json.str "p2")],
   Json.obj [("stockid", Json.str "p3")], Json.obj [("stockid", Json.str "p4")],
   Json.obj [("stockid", Json.str "p5")], Json.obj [("stockid", Json.str "p6")],
   Json.obj [("stockid", Json.str "p7")], Json.obj [("stockid", Json.str "p8")]]

/-- The decoded object of `eightEntryStdout`. -/
def eightPredictions : Json :=
  Json.obj [("final_predictions", Json.arr eightEntries),
    ("factor_predictions", Json.arr [Json.obj [("stockid", Json.str "f1")]])]

/-- An object carrying both prediction keys, the first with a falsy value. -/
def bothPresentFalsy : Json :=
  Json.obj [("final_predictions", Json.null), ("factor_predictions", Json.arr [])]

/-- Stdout decoding to `bothPresentFalsy`. -/
def bothPresentFalsyStdout : String :=
  "\x7b\"final_predictions\":null,\"factor_predictions\":[]\x7d"

/-! ### Helper lemmas about the persistence loops -/

/-- With a sink that accepts every price write, the loop maps every entry in
order and commits all of them. -/
theorem savePriceLoop_all_ok (sink : SinkOracle) (now : String)
    (hok : ∀ j r, sink.priceResult j r = Except.ok ()) :
    ∀ (entries : List Json) (i : Nat) (acc : List PricePredictionRecord),
      savePriceLoop sink now entries i acc =
        (acc ++ entries.map (mkPriceRecord now), none) := by
  intro entries
  induction entries with
  | nil => intro i acc; simp [savePriceLoop]
  | cons p rest ih =>
    intro i acc
    simp only [savePriceLoop, hok, List.map_cons]
    rw [ih (i + 1) (acc ++ [mkPriceRecord now p])]
    simp

/-- With a sink that accepts every factor write, the loop maps every entry in
order and commits all of them. -/
theorem saveFactorLoop_all_ok (sink : SinkOracle)
    (hok : ∀ j r, sink.factorResult j r = Except.ok ()) :
    ∀ (entries : List Json) (i : Nat) (acc : List FactorPredictionRecord),
      saveFactorLoop sink entries i acc =
        (acc ++ entries.map mkFactorRecord, none) := by
  intro entries
  induction entries with
  | nil => intro i acc; simp [saveFactorLoop]
  | cons p rest ih =>
    intro i acc
    simp only [saveFactorLoop, hok, List.map_cons]
    rw [ih (i + 1) (acc ++ [mkFactorRecord p])]
    simp

/-- If the sink accepts the first `k` price writes (counted from base index
`i`) and throws `msg` on the `k`-th, the loop stops there: exactly the first
`k` mapped records are committed and `msg` is raised. -/
theorem savePriceLoop_first_fail (sink : SinkOracle) (now : String)
    (msg : String) :
    ∀ (entries : List Json) (k i : Nat) (acc : List PricePredictionRecord),
      k < entries.length →
      (∀ j r, j < k → sink.priceResult (i + j) r = Except.ok ()) →
      (∀ r, sink.priceResult (i + k) r = Except.error msg) →
      savePriceLoop sink now entries i acc =
        (acc ++ (entries.take k).map (mkPriceRecord now), some msg) := by
  intro entries
  induction entries with
  | nil => intro k i acc hk; simp at hk
  | cons p rest ih =>
    intro k i acc hk hok hfail
    match k with
    | 0 =>
      have h0 := hfail (mkPriceRecord now p)
      simp only [Nat.add_zero] at h0
      simp [savePriceLoop, h0]
    | Nat.succ k' =>
      have h0 : sink.priceResult i (mkPriceRecord now p) = Except.ok () := by
        have := hok 0 (mkPriceRecord now p) (Nat.succ_pos k')
        simpa using this
      simp only [savePriceLoop, h0, List.take_succ_cons, List.map_cons]
      rw [ih k' (i + 1) (acc ++ [mkPriceRecord now p])
        (by simpa using Nat.lt_of_succ_lt_succ hk)
        (fun j r hj => by
          have := hok (j + 1) r (Nat.succ_lt_succ hj)
          simpa [Nat.add_assoc, Nat.add_comm 1 j] using this)
        (fun r => by
          have := hfail r
          simpa [Nat.add_assoc, Nat.add_comm 1 k'] using this)]
      simp

/-! ### Stage decomposition lemmas -/

/-- With a non-empty dataset and exit code 0 the handler reduces to the
parse/validate/persist stage. -/
theorem modelPredictPost_spawn (sink : SinkOracle) (now : String)
    (inp : RunInput) (stockData : List Json)
    (hsd : inp.stockData = some stockData) (hne : stockData.length ≠ 0)
    (hexit : inp.exitCode = 0) :
    modelPredictPost sink now inp = runParseStage sink now inp.stdoutText := by
  unfold modelPredictPost
  rw [hsd]
  simp [hne, hexit]

/-- A recovery failure produces the catch-block 500 response with no writes. -/
theorem runParseStage_recover_error (sink : SinkOracle) (now : String)
    (out : String) (m : String) (h : recoverOutput out = Except.error m) :
    runParseStage sink now out =
      { response := Response.parseFailed "解析预测结果失败" m (boundedExcerpt out 200)
        committedPrices := [], committedFactors := [], processSpawned := true } := by
  unfold runParseStage
  rw [h]

/-- A failed field check produces the malformed-result 500 response with no
writes. -/
theorem runParseStage_check_false (sink : SinkOracle) (now : String)
    (out : String) (predictions : Json)
    (h : recoverOutput out = Except.ok predictions)
    (hc : checkPredictionFields predictions = false) :
    runParseStage sink now out =
      { response := Response.parseFailed "解析预测结果失败"
          "预测结果格式不正确，缺少必要的数据字段" (boundedExcerpt out 200)
        committedPrices := [], committedFactors := [], processSpawned := true } := by
  unfold runParseStage
  rw [h]
  simp [hc]

/-- A passed field check hands over to the mapping stage. -/
theorem runParseStage_check_true (sink : SinkOracle) (now : String)
    (out : String) (predictions : Json)
    (h : recoverOutput out = Except.ok predictions)
    (hc : checkPredictionFields predictions = true) :
    runParseStage sink now out = runMappingStage sink now out predictions := by
  unfold runParseStage
  rw [h]
  simp [hc]

/-! ### Claim theorems -/

/-- C6: whenever the external process exits with a nonzero code (and a
dataset was found), the run fails with the process-execution error carrying
the full accumulated stderr buffer, nothing is written to the sink, and the
accumulated stdout is never parsed: the outcome is invariant under replacing
the stdout text. -/
theorem c6_nonzero_exit_short_circuits (sink : SinkOracle) (now : String)
    (inp : RunInput) (stockData : List Json)
    (hsd : inp.stockData = some stockData) (hne : stockData.length ≠ 0)
    (hexit : inp.exitCode ≠ 0) :
    modelPredictPost sink now inp =
      { response := Response.serverError "模型执行失败" inp.stderrText
        committedPrices := [], committedFactors := [], processSpawned := true } ∧
    ∀ s : String,
      modelPredictPost sink now { inp with stdoutText := s } =
        modelPredictPost sink now inp := by
  have hmain : modelPredictPost sink now inp =
      { response := Response.serverError "模型执行失败" inp.stderrText
        committedPrices := [], committedFactors := [], processSpawned := true } := by
    unfold modelPredictPost
    rw [hsd]
    simp [hne, hexit]
  refine ⟨hmain, fun s => ?_⟩
  rw [hmain]
  unfold modelPredictPost
  rw [show (RunInput.stockData { inp with stdoutText := s }) = some stockData from hsd]
  simp [hne, hexit]

/-- C6 witness: exit code 1 with stderr "boom" yields the process-execution
failure carrying "boom", for any stdout text. -/
theorem c6_witness :
    modelPredictPost okSink "T" ⟨some [Json.null], 1, "ignored stdout", "boom"⟩ =
      { response := Response.serverError "模型执行失败" "boom"
        committedPrices := [], committedFactors := [], processSpawned := true } ∧
    modelPredictPost okSink "T" ⟨some [Json.null], 1, "other stdout", "boom"⟩ =
      modelPredictPost okSink "T" ⟨some [Json.null], 1, "ignored stdout", "boom"⟩ := by
  have h := c6_nonzero_exit_short_circuits okSink "T"
    ⟨some [Json.null], 1, "ignored stdout", "boom"⟩ [Json.null] rfl
    (by decide) (by decide)
  exact ⟨h.1, h.2 "other stdout"⟩

/-- C7: a run whose dataset source yields the empty sequence fails with the
404 empty-dataset response; no child process is spawned, nothing is written
to the sink, and no later pipeline stage runs — the outcome is the same for
every sink, clock and process behaviour. -/
theorem c7_empty_dataset_rejected (sink : SinkOracle) (now : String)
    (inp : RunInput) (h : inp.stockData = some []) :
    modelPredictPost sink now inp =
      { response := Response.notFound "未找到股票数据"
        committedPrices := [], committedFactors := [], processSpawned := false } ∧
    ∀ (sink2 : SinkOracle) (now2 : String) (ec : Int) (so se : String),
      modelPredictPost sink2 now2 ⟨some [], ec, so, se⟩ =
        modelPredictPost sink now inp := by
  have hmain : modelPredictPost sink now inp =
      { response := Response.notFound "未找到股票数据"
        committedPrices := [], committedFactors := [], processSpawned := false } := by
    unfold modelPredictPost
    rw [h]
    simp
  refine ⟨hmain, fun sink2 now2 ec so se => ?_⟩
  rw [hmain]
  unfold modelPredictPost
  simp

/-- C7 witness at a concrete empty-dataset input. -/
theorem c7_witness :
    modelPredictPost okSink "T" ⟨some [], 0, "x", "y"⟩ =
      { response := Response.notFound "未找到股票数据"
        committedPrices := [], committedFactors := [], processSpawned := false } ∧
    modelPredictPost (mkFailSink 0 "boom") "U" ⟨some [], 1, "a", "b"⟩ =
      modelPredictPost okSink "T" ⟨some [], 0, "x", "y"⟩ := by
  have h := c7_empty_dataset_rejected okSink "T" ⟨some [], 0, "x", "y"⟩ rfl
  exact ⟨h.1, h.2 (mkFailSink 0 "boom") "U" 1 "a" "b"⟩

/-- C10: a dataset source yielding null/undefined is rejected exactly like
the empty dataset: the same 404 response, before any process is spawned and
with nothing written. -/
theorem c10_null_dataset_like_empty (sink : SinkOracle) (now : String)
    (inp : RunInput) (h : inp.stockData = none) :
    modelPredictPost sink now inp =
      { response := Response.notFound "未找到股票数据"
        committedPrices := [], committedFactors := [], processSpawned := false } ∧
    modelPredictPost sink now inp =
      modelPredictPost sink now { inp with stockData := some [] } := by
  have hmain : modelPredictPost sink now inp =
      { response := Response.notFound "未找到股票数据"
        committedPrices := [], committedFactors := [], processSpawned := false } := by
    unfold modelPredictPost
    rw [h]
  refine ⟨hmain, ?_⟩
  rw [hmain]
  unfold modelPredictPost
  simp

/-- C10 witness at a concrete null-dataset input. -/
theorem c10_witness :
    modelPredictPost okSink "T" ⟨none, 0, "x", "y"⟩ =
      { response := Response.notFound "未找到股票数据"
        committedPrices := [], committedFactors := [], processSpawned := false } ∧
    modelPredictPost okSink "T" ⟨none, 0, "x", "y"⟩ =
      modelPredictPost okSink "T" ⟨some [], 0, "x", "y"⟩ := by
  have h := c10_null_dataset_like_empty okSink "T" ⟨none, 0, "x", "y"⟩ rfl
  exact h

set_option maxRecDepth 8000 in
/-- C1 counterexample: a raw price entry whose stock identifier and date are
both the empty string is not rejected — the sink write is attempted, the
record (with empty `stockId` and `date`) is committed, and the run even
succeeds.  No validation precedes persistence. -/
theorem c1_counterexample :
    (modelPredictPost okSink "T" (mkInput emptyIdStdout)).committedPrices =
      [{ stockId := some (Json.str ""), date := some (Json.str "")
         predictedPrice := none, createdAt := "T" }] ∧
    (modelPredictPost okSink "T" (mkInput emptyIdStdout)).response.statusCode = 200 := by
  exact ⟨rfl, rfl⟩

/-- C1 (amended): the Persistence Mapper performs no validation at all —
with an accepting sink, every raw entry of either sequence, whatever its
fields (empty or missing stock identifier and date included), is mapped and
written, and no entry is ever rejected before the write. -/
theorem c1_mapper_never_rejects (now : String) (entries : List Json) :
    savePriceLoop okSink now entries 0 [] =
      (entries.map (mkPriceRecord now), none) ∧
    saveFactorLoop okSink entries 0 [] = (entries.map mkFactorRecord, none) := by
  constructor
  · rw [savePriceLoop_all_ok okSink now (fun _ _ => rfl) entries 0 []]
    simp
  · rw [saveFactorLoop_all_ok okSink (fun _ _ => rfl) entries 0 []]
    simp

/-- C4: on a successful run whose decoded output carries `N` price entries
and `M` factor entries, and whose sink accepts every write, exactly the `N`
mapped price records and `M` mapped factor records are committed (in order),
the summary counts are the lengths of the committed lists, and each samples
list is the first five committed records of its kind. -/
theorem c4_success_counts_and_samples (sink : SinkOracle) (now : String)
    (inp : RunInput) (stockData : List Json) (predictions : Json)
    (priceEntries factorEntries : List Json)
    (hsd : inp.stockData = some stockData) (hne : stockData.length ≠ 0)
    (hexit : inp.exitCode = 0)
    (hrec : recoverOutput inp.stdoutText = Except.ok predictions)
    (hchk : checkPredictionFields predictions = true)
    (hpiter : jsIterate ((jsGet predictions "final_predictions").getD Json.null)
      = some priceEntries)
    (hfiter : jsIterate ((jsGet predictions "factor_predictions").getD Json.null)
      = some factorEntries)
    (hpok : ∀ j r, sink.priceResult j r = Except.ok ())
    (hfok : ∀ j r, sink.factorResult j r = Except.ok ()) :
    modelPredictPost sink now inp =
      { response := Response.success "预测完成并保存到数据库"
          (priceEntries.map (mkPriceRecord now)).length
          ((priceEntries.map (mkPriceRecord now)).take 5)
          (factorEntries.map mkFactorRecord).length
          ((factorEntries.map mkFactorRecord).take 5)
        committedPrices := priceEntries.map (mkPriceRecord now)
        committedFactors := factorEntries.map mkFactorRecord
        processSpawned := true } ∧
    (modelPredictPost sink now inp).committedPrices.length = priceEntries.length ∧
    (modelPredictPost sink now inp).committedFactors.length = factorEntries.length := by
  have h3 : runMappingStage sink now inp.stdoutText predictions =
      { response := Response.success "预测完成并保存到数据库"
          (priceEntries.map (mkPriceRecord now)).length
          ((priceEntries.map (mkPriceRecord now)).take 5)
          (factorEntries.map mkFactorRecord).length
          ((factorEntries.map mkFactorRecord).take 5)
        committedPrices := priceEntries.map (mkPriceRecord now)
        committedFactors := factorEntries.map mkFactorRecord
        processSpawned := true } := by
    unfold runMappingStage
    simp only [hpiter]
    rw [savePriceLoop_all_ok sink now hpok priceEntries 0 []]
    simp only [List.nil_append, hfiter]
    rw [saveFactorLoop_all_ok sink hfok factorEntries 0 []]
    simp
  have hmain : modelPredictPost sink now inp =
      { response := Response.success "预测完成并保存到数据库"
          (priceEntries.map (mkPriceRecord now)).length
          ((priceEntries.map (mkPriceRecord now)).take 5)
          (factorEntries.map mkFactorRecord).length
          ((factorEntries.map mkFactorRecord).take 5)
        committedPrices := priceEntries.map (mkPriceRecord now)
        committedFactors := factorEntries.map mkFactorRecord
        processSpawned := true } := by
    rw [modelPredictPost_spawn sink now inp stockData hsd hne hexit]
    rw [runParseStage_check_true sink now inp.stdoutText predictions hrec hchk]
    exact h3
  refine ⟨hmain, ?_, ?_⟩
  · rw [hmain]; simp
  · rw [hmain]; simp

set_option maxRecDepth 8000 in
/-- C4 witness: eight price entries and one factor entry, all accepted —
eight price records and one factor record are committed, the counts match,
and `priceSamples` is exactly the first five committed records in insertion
order. -/
theorem c4_witness :
    modelPredictPost okSink "T" (mkInput eightEntryStdout) =
      { response := Response.success "预测完成并保存到数据库"
          (eightEntries.map (mkPriceRecord "T")).length
          ((eightEntries.map (mkPriceRecord "T")).take 5)
          ([Json.obj [("stockid", Json.str "f1")]].map mkFactorRecord).length
          (([Json.obj [("stockid", Json.str "f1")]].map mkFactorRecord).take 5)
        committedPrices := eightEntries.map (mkPriceRecord "T")
        committedFactors := [Json.obj [("stockid", Json.str "f1")]].map mkFactorRecord
        processSpawned := true } ∧
    (modelPredictPost okSink "T" (mkInput eightEntryStdout)).committedPrices.length = 8 ∧
    (modelPredictPost okSink "T" (mkInput eightEntryStdout)).committedFactors.length = 1 := by
  have h := c4_success_counts_and_samples okSink "T" (mkInput eightEntryStdout)
    [Json.null] eightPredictions eightEntries
    [Json.obj [("stockid", Json.str "f1")]] rfl (by decide) rfl rfl rfl rfl rfl
    (fun _ _ => rfl) (fun _ _ => rfl)
  exact ⟨h.1, h.2.1.trans (by rfl), h.2.2.trans (by rfl)⟩

/-- C2: when the sink accepts the first `k` price writes and throws on the
`k`-th entry, the remaining iteration is aborted and the whole request fails
(HTTP 500) with the raised storage error; the `k` records written before the
failure remain committed (no rollback), no factor record is ever written,
and the outcome is independent of the factor-write behaviour of the sink —
factor persistence is never attempted. -/
theorem c2_partial_failure_semantics (sink : SinkOracle) (now : String)
    (inp : RunInput) (stockData : List Json) (predictions : Json)
    (entries : List Json) (k : Nat) (msg : String)
    (hsd : inp.stockData = some stockData) (hne : stockData.length ≠ 0)
    (hexit : inp.exitCode = 0)
    (hrec : recoverOutput inp.stdoutText = Except.ok predictions)
    (hchk : checkPredictionFields predictions = true)
    (hpiter : jsIterate ((jsGet predictions "final_predictions").getD Json.null)
      = some entries)
    (hk : k < entries.length)
    (hok : ∀ j r, j < k → sink.priceResult j r = Except.ok ())
    (hfail : ∀ r, sink.priceResult k r = Except.error msg) :
    modelPredictPost sink now inp =
      { response := Response.parseFailed "解析预测结果失败" msg
          (boundedExcerpt inp.stdoutText 200)
        committedPrices := (entries.take k).map (mkPriceRecord now)
        committedFactors := [], processSpawned := true } ∧
    (modelPredictPost sink now inp).response.statusCode = 500 ∧
    ∀ sink2 : SinkOracle, sink2.priceResult = sink.priceResult →
      modelPredictPost sink2 now inp = modelPredictPost sink now inp := by
  have hloop : savePriceLoop sink now entries 0 [] =
      ((entries.take k).map (mkPriceRecord now), some msg) := by
    have h := savePriceLoop_first_fail sink now msg entries k 0 [] hk
      (fun j r hj => by simpa using hok j r hj)
      (fun r => by simpa using hfail r)
    simpa using h
  have hmap : ∀ sink2 : SinkOracle, sink2.priceResult = sink.priceResult →
      runMappingStage sink2 now inp.stdoutText predictions =
        { response := Response.parseFailed "解析预测结果失败" msg
            (boundedExcerpt inp.stdoutText 200)
          committedPrices := (entries.take k).map (mkPriceRecord now)
          committedFactors := [], processSpawned := true } := by
    intro sink2 hpr
    have hloop2 : savePriceLoop sink2 now entries 0 [] =
        ((entries.take k).map (mkPriceRecord now), some msg) := by
      have h := savePriceLoop_first_fail sink2 now msg entries k 0 [] hk
        (fun j r hj => by simpa [hpr] using hok j r hj)
        (fun r => by simpa [hpr] using hfail r)
      simpa using h
    unfold runMappingStage
    simp only [hpiter]
    rw [hloop2]
  have hmain : modelPredictPost sink now inp =
      { response := Response.parseFailed "解析预测结果失败" msg
          (boundedExcerpt inp.stdoutText 200)
        committedPrices := (entries.take k).map (mkPriceRecord now)
        committedFactors := [], processSpawned := true } := by
    rw [modelPredictPost_spawn sink now inp stockData hsd hne hexit]
    rw [runParseStage_check_true sink now inp.stdoutText predictions hrec hchk]
    exact hmap sink rfl
  refine ⟨hmain, by rw [hmain]; rfl, fun sink2 hpr => ?_⟩
  rw [hmain]
  rw [modelPredictPost_spawn sink2 now inp stockData hsd hne hexit]
  rw [runParseStage_check_true sink2 now inp.stdoutText predictions hrec hchk]
  exact hmap sink2 hpr

set_option maxRecDepth 8000 in
/-- C2 witness: the third of five price entries fails to persist — exactly
the first two records are committed, no factor record exists, and the run
fails with HTTP 500 carrying the raised message. -/
theorem c2_witness :
    modelPredictPost (mkFailSink 2 "write failed") "T" (mkInput fiveEntryStdout) =
      { response := Response.parseFailed "解析预测结果失败" "write failed"
          (boundedExcerpt fiveEntryStdout 200)
        committedPrices := (fiveEntries.take 2).map (mkPriceRecord "T")
        committedFactors := [], processSpawned := true } ∧
    (modelPredictPost (mkFailSink 2 "write failed") "T" (mkInput fiveEntryStdout)).committedPrices.length = 2 ∧
    (modelPredictPost (mkFailSink 2 "write failed") "T" (mkInput fiveEntryStdout)).response.statusCode = 500 := by
  have h := c2_partial_failure_semantics (mkFailSink 2 "write failed") "T"
    (mkInput fiveEntryStdout) [Json.null] fivePredictions fiveEntries 2
    "write failed" rfl (by decide) rfl rfl rfl rfl (by decide)
    (fun j r hj => by
      simp only [mkFailSink]
      rw [if_neg (by omega)])
    (fun r => by simp [mkFailSink])
  refine ⟨h.1, ?_, h.2.1⟩
  rw [h.1]
  rfl

set_option maxRecDepth 8000 in
set_option maxHeartbeats 1600000 in
/-- C3 counterexample: the error kinds do not map to distinct client
statuses.  A malformed decoded result, a sink write raising mid-batch, and
undecodable output all produce HTTP 500 with the identical `error` field
"解析预测结果失败"; moreover the mid-batch storage failure carries only the
raised message and a stdout excerpt — not the index or record of the first
failing entry. -/
theorem c3_counterexample :
    (modelPredictPost okSink "T" (mkInput malformedStdout)).response.statusCode = 500 ∧
    (modelPredictPost (mkFailSink 0 "ECONNRESET") "T" (mkInput oneEntryStdout)).response.statusCode = 500 ∧
    (modelPredictPost okSink "T" (mkInput noJsonStdout)).response.statusCode = 500 ∧
    (modelPredictPost okSink "T" (mkInput malformedStdout)).response.errorField =
      some "解析预测结果失败" ∧
    (modelPredictPost (mkFailSink 0 "ECONNRESET") "T" (mkInput oneEntryStdout)).response.errorField =
      some "解析预测结果失败" ∧
    (modelPredictPost okSink "T" (mkInput noJsonStdout)).response.errorField =
      some "解析预测结果失败" ∧
    (modelPredictPost (mkFailSink 0 "ECONNRESET") "T" (mkInput oneEntryStdout)).response =
      Response.parseFailed "解析预测结果失败" "ECONNRESET"
        (boundedExcerpt oneEntryStdout 200) := by
  exact ⟨rfl, rfl, rfl, rfl, rfl, rfl, rfl⟩

/-- C3 (amended): the empty dataset maps to 404 and a nonzero exit to a 500
whose error field is "模型执行失败", but unrecoverable output, a malformed
decoded result, and a mid-batch storage failure all map to the same 500
response with error field "解析预测结果失败" — distinguishable only through
the free-text `details`; the storage failure reports the raised error's
message, not the failing entry's index or record. -/
theorem c3_amended_status_mapping :
    (∀ (sink : SinkOracle) (now : String) (inp : RunInput),
       inp.stockData = none ∨ inp.stockData = some [] →
       (modelPredictPost sink now inp).response.statusCode = 404 ∧
       (modelPredictPost sink now inp).response.errorField = some "未找到股票数据") ∧
    (∀ (sink : SinkOracle) (now : String) (inp : RunInput) (stockData : List Json),
       inp.stockData = some stockData → stockData.length ≠ 0 → inp.exitCode ≠ 0 →
       (modelPredictPost sink now inp).response =
         Response.serverError "模型执行失败" inp.stderrText) ∧
    (∀ (sink : SinkOracle) (now out m : String),
       recoverOutput out = Except.error m →
       (runParseStage sink now out).response =
         Response.parseFailed "解析预测结果失败" m (boundedExcerpt out 200)) ∧
    (∀ (sink : SinkOracle) (now out : String) (predictions : Json),
       recoverOutput out = Except.ok predictions →
       checkPredictionFields predictions = false →
       (runParseStage sink now out).response =
         Response.parseFailed "解析预测结果失败"
           "预测结果格式不正确，缺少必要的数据字段" (boundedExcerpt out 200)) ∧
    (∀ (sink : SinkOracle) (now out msg : String) (predictions : Json)
       (entries : List Json) (k : Nat),
       recoverOutput out = Except.ok predictions →
       checkPredictionFields predictions = true →
       jsIterate ((jsGet predictions "final_predictions").getD Json.null) = some entries →
       k < entries.length →
       (∀ j r, j < k → sink.priceResult j r = Except.ok ()) →
       (∀ r, sink.priceResult k r = Except.error msg) →
       (runParseStage sink now out).response =
         Response.parseFailed "解析预测结果失败" msg (boundedExcerpt out 200)) := by
  refine ⟨?_, ?_, ?_, ?_, ?_⟩
  · intro sink now inp h
    rcases h with h | h
    · unfold modelPredictPost
      rw [h]
      exact ⟨rfl, rfl⟩
    · unfold modelPredictPost
      rw [h]
      exact ⟨rfl, rfl⟩
  · intro sink now inp stockData hsd hne hexit
    unfold modelPredictPost
    rw [hsd]
    simp [hne, hexit]
  · intro sink now out m h
    rw [runParseStage_recover_error sink now out m h]
  · intro sink now out predictions h hc
    rw [runParseStage_check_false sink now out predictions h hc]
  · intro sink now out msg predictions entries k hrec hchk hpiter hk hok hfail
    rw [runParseStage_check_true sink now out predictions hrec hchk]
    have hloop : savePriceLoop sink now entries 0 [] =
        ((entries.take k).map (mkPriceRecord now), some msg) := by
      have h := savePriceLoop_first_fail sink now msg entries k 0 [] hk
        (fun j r hj => by simpa using hok j r hj)
        (fun r => by simpa using hfail r)
      simpa using h
    unfold runMappingStage
    simp only [hpiter]
    rw [hloop]

set_option maxRecDepth 8000 in
set_option maxHeartbeats 1600000 in
/-- C3 witness: a null dataset yields 404, and stdout with no brace pair
yields the 500 response carrying the no-JSON message and a bounded
excerpt. -/
theorem c3_witness :
    (modelPredictPost okSink "T" ⟨none, 0, "x", "y"⟩).response.statusCode = 404 ∧
    (runParseStage okSink "T" noJsonStdout).response =
      Response.parseFailed "解析预测结果失败" noJsonFoundMsg
        (boundedExcerpt noJsonStdout 200) := by
  refine ⟨(c3_amended_status_mapping.1 okSink "T" ⟨none, 0, "x", "y"⟩ (Or.inl rfl)).1, ?_⟩
  exact c3_amended_status_mapping.2.2.1 okSink "T" noJsonStdout noJsonFoundMsg rfl

set_option maxRecDepth 8000 in
/-- C5: the Output Recoverer first attempts direct decoding; when that fails
it decodes exactly the substring from the first opening brace to the last
closing brace; when no such pair exists, or that substring also fails to
decode, the run fails carrying a bounded (≤ 200 character) prefix of the raw
text; the spec's diagnostic-wrapped payload is recovered to the embedded
object with two empty sequences. -/
theorem c5_output_recoverer :
    (∀ (out : String) (v : Json), jsonParse out = some v →
       recoverOutput out = Except.ok v) ∧
    (∀ out : String, jsonParse out = none →
       ¬(jsIndexOf out.data braceOpen ≥ 0 ∧
         jsLastIndexOf out.data braceClose + 1 > jsIndexOf out.data braceOpen) →
       recoverOutput out = Except.error noJsonFoundMsg) ∧
    (∀ (out : String) (v : Json), jsonParse out = none →
       (jsIndexOf out.data braceOpen ≥ 0 ∧
        jsLastIndexOf out.data braceClose + 1 > jsIndexOf out.data braceOpen) →
       jsonParse (String.mk (jsSubstring out.data
         (jsIndexOf out.data braceOpen).toNat
         (jsLastIndexOf out.data braceClose + 1).toNat)) = some v →
       recoverOutput out = Except.ok v) ∧
    (∀ out : String, jsonParse out = none →
       (jsIndexOf out.data braceOpen ≥ 0 ∧
        jsLastIndexOf out.data braceClose + 1 > jsIndexOf out.data braceOpen) →
       jsonParse (String.mk (jsSubstring out.data
         (jsIndexOf out.data braceOpen).toNat
         (jsLastIndexOf out.data braceClose + 1).toNat)) = none →
       recoverOutput out = Except.error jsonDecodeErrMsg) ∧
    (∀ (sink : SinkOracle) (now out m : String),
       recoverOutput out = Except.error m →
       (runParseStage sink now out).response =
         Response.parseFailed "解析预测结果失败" m (boundedExcerpt out 200) ∧
       (boundedExcerpt out 200).data.length ≤ 200) ∧
    recoverOutput warmupText =
      Except.ok (Json.obj [("final_predictions", Json.arr []),
        ("factor_predictions", Json.arr [])]) := by
  refine ⟨?_, ?_, ?_, ?_, ?_, ?_⟩
  · intro out v h
    unfold recoverOutput
    rw [h]
  · intro out h hnp
    unfold recoverOutput
    rw [h]
    simp only []
    rw [if_neg hnp]
  · intro out v h hp hsub
    unfold recoverOutput
    rw [h]
    simp only []
    rw [if_pos hp, hsub]
  · intro out h hp hsub
    unfold recoverOutput
    rw [h]
    simp only []
    rw [if_pos hp, hsub]
  · intro sink now out m h
    refine ⟨?_, ?_⟩
    · rw [runParseStage_recover_error sink now out m h]
    · simp only [boundedExcerpt]
      rw [List.length_take]
      exact min_le_left _ _
  · rfl

set_option maxRecDepth 8000 in
/-- C5 witness: a bare object decodes directly; text with no brace pair
fails with the no-JSON message; the diagnostic-wrapped payload is recovered
through the substring fallback. -/
theorem c5_witness :
    recoverOutput "\x7b\x7d" = Except.ok (Json.obj []) ∧
    recoverOutput noJsonStdout = Except.error noJsonFoundMsg ∧
    recoverOutput warmupText =
      Except.ok (Json.obj [("final_predictions", Json.arr []),
        ("factor_predictions", Json.arr [])]) := by
  have h := c5_output_recoverer
  exact ⟨h.1 "\x7b\x7d" (Json.obj []) rfl,
    h.2.1 noJsonStdout rfl (by decide),
    h.2.2.2.2.2⟩

set_option maxRecDepth 8000 in
/-- C8 counterexample: a decoded object in which BOTH keys are present —
`final_predictions` bound to `null`, `factor_predictions` to an empty
array — does not proceed to mapping: the run fails with the
malformed-result error, refuting "if both keys are present the run proceeds
to mapping". -/
theorem c8_counterexample :
    jsGet bothPresentFalsy "final_predictions" = some Json.null ∧
    jsGet bothPresentFalsy "factor_predictions" = some (Json.arr []) ∧
    checkPredictionFields bothPresentFalsy = false ∧
    recoverOutput bothPresentFalsyStdout = Except.ok bothPresentFalsy ∧
    (modelPredictPost okSink "T" (mkInput bothPresentFalsyStdout)).response =
      Response.parseFailed "解析预测结果失败"
        "预测结果格式不正确，缺少必要的数据字段"
        (boundedExcerpt bothPresentFalsyStdout 200) := by
  exact ⟨rfl, rfl, rfl, rfl, rfl⟩

/-- C8 (amended): absence of either prediction key fails the check, and the
run fails with the malformed-result error whenever the check fails — which
also happens for keys present with falsy values; only when the check passes
does the run proceed, unchanged, to the mapping stage. -/
theorem c8_absent_key_fails_validation :
    (∀ predictions : Json,
       jsGet predictions "final_predictions" = none ∨
       jsGet predictions "factor_predictions" = none →
       checkPredictionFields predictions = false) ∧
    (∀ (sink : SinkOracle) (now out : String) (predictions : Json),
       recoverOutput out = Except.ok predictions →
       checkPredictionFields predictions = false →
       runParseStage sink now out =
         { response := Response.parseFailed "解析预测结果失败"
             "预测结果格式不正确，缺少必要的数据字段" (boundedExcerpt out 200)
           committedPrices := [], committedFactors := []
           processSpawned := true }) ∧
    (∀ (sink : SinkOracle) (now out : String) (predictions : Json),
       recoverOutput out = Except.ok predictions →
       checkPredictionFields predictions = true →
       runParseStage sink now out = runMappingStage sink now out predictions) := by
  refine ⟨?_, ?_, ?_⟩
  · intro predictions h
    rcases h with h | h
    · simp [checkPredictionFields, jsTruthyOpt, h]
    · simp [checkPredictionFields, jsTruthyOpt, h]
  · intro sink now out predictions h hc
    exact runParseStage_check_false sink now out predictions h hc
  · intro sink now out predictions h hc
    exact runParseStage_check_true sink now out predictions h hc

set_option maxRecDepth 8000 in
/-- C8 witness: the spec's example — a decoded object holding only
`final_predictions` — fails the check, and the run fails with the
malformed-result response. -/
theorem c8_witness :
    checkPredictionFields (Json.obj [("final_predictions", Json.arr [])]) = false ∧
    runParseStage okSink "T" malformedStdout =
      { response := Response.parseFailed "解析预测结果失败"
          "预测结果格式不正确，缺少必要的数据字段"
          (boundedExcerpt malformedStdout 200)
        committedPrices := [], committedFactors := []
        processSpawned := true } := by
  have h := c8_absent_key_fails_validation
  exact ⟨h.1 (Json.obj [("final_predictions", Json.arr [])]) (Or.inr rfl),
    h.2.1 okSink "T" malformedStdout (Json.obj [("final_predictions", Json.arr [])])
      rfl rfl⟩

/-- C9: the key check is by JavaScript truthiness, not key presence — the
run proceeds past validation exactly when both properties hold truthy
values; a key present with a falsy value (`null`, `0`, `""`, `false`) acts
exactly like an absent key, while an empty array passes. -/
theorem c9_truthiness_validation :
    (∀ predictions : Json, checkPredictionFields predictions =
       (jsTruthyOpt (jsGet predictions "final_predictions") &&
        jsTruthyOpt (jsGet predictions "factor_predictions"))) ∧
    (∀ fp facp : Json,
       checkPredictionFields (Json.obj [("final_predictions", fp),
         ("factor_predictions", facp)]) = (jsTruthy fp && jsTruthy facp)) ∧
    (jsTruthy Json.null = false ∧ jsTruthy (Json.num 0) = false ∧
     jsTruthy (Json.str "") = false ∧ jsTruthy (Json.bool false) = false) ∧
    (∀ elems : List Json, jsTruthy (Json.arr elems) = true) ∧
    (∀ (v facp : Json), jsTruthy v = false →
       checkPredictionFields (Json.obj [("final_predictions", v),
         ("factor_predictions", facp)]) =
       checkPredictionFields (Json.obj [("factor_predictions", facp)])) ∧
    (∀ (sink : SinkOracle) (now out : String) (predictions : Json),
       recoverOutput out = Except.ok predictions →
       (checkPredictionFields predictions = true →
          runParseStage sink now out = runMappingStage sink now out predictions) ∧
       (checkPredictionFields predictions = false →
          runParseStage sink now out =
            { response := Response.parseFailed "解析预测结果失败"
                "预测结果格式不正确，缺少必要的数据字段" (boundedExcerpt out 200)
              committedPrices := [], committedFactors := []
              processSpawned := true })) := by
  refine ⟨?_, ?_, ?_, ?_, ?_, ?_⟩
  · intro predictions
    rfl
  · intro fp facp
    rfl
  · exact ⟨rfl, rfl, rfl, rfl⟩
  · intro elems
    rfl
  · intro v facp h
    have h1 : checkPredictionFields (Json.obj [("final_predictions", v),
        ("factor_predictions", facp)]) = (jsTruthy v && jsTruthy facp) := rfl
    rw [h1, h]
    rfl
  · intro sink now out predictions h
    exact ⟨runParseStage_check_true sink now out predictions h,
      runParseStage_check_false sink now out predictions h⟩

set_option maxRecDepth 8000 in
/-- C9 witness: a present-but-zero `final_predictions` acts like the absent
key; empty arrays are truthy and pass; on the diagnostic-wrapped payload
with two empty arrays the run proceeds to the mapping stage. -/
theorem c9_witness :
    checkPredictionFields (Json.obj [("final_predictions", Json.num 0),
      ("factor_predictions", Json.arr [])]) =
      checkPredictionFields (Json.obj [("factor_predictions", Json.arr [])]) ∧
    checkPredictionFields (Json.obj [("final_predictions", Json.arr []),
      ("factor_predictions", Json.arr [])]) =
      (jsTruthy (Json.arr []) && jsTruthy (Json.arr [])) ∧
    runParseStage okSink "T" warmupText =
      runMappingStage okSink "T" warmupText
        (Json.obj [("final_predictions", Json.arr []),
          ("factor_predictions", Json.arr [])]) := by
  have h := c9_truthiness_validation
  exact ⟨h.2.2.2.2.1 (Json.num 0) (Json.arr []) rfl,
    h.2.1 (Json.arr []) (Json.arr []),
    (h.2.2.2.2.2 okSink "T" warmupText
      (Json.obj [("final_predictions", Json.arr []),
        ("factor_predictions", Json.arr [])]) rfl).1 rfl⟩
